import Mathlib

/-!
# Placement reconciliation for Capp workloads

A shallow embedding of `internals/controllers/cappPlacement_controller.go`:
the reconciler `ServicePlacementReconciler.Reconcile`, its decision picker
`pickDecision`, and the event filter `ServicePredicateFunctions`.

The Go code talks to the API server through `r.Client`, classifies the fetch
error with the library check `errors.IsNotFound`, and calls the helpers of
`internals/utils`.  Those collaborators are not part of the controller file, so
they are taken as parameters (`Env`): every theorem about `Reconcile` holds for
all implementations of them.  Each run records the calls it makes, in order, so
that "is invoked exactly once" and "is never invoked" are statements about the
recorded call list.  Log lines are not modelled.
-/

namespace Controllers

/-! ## Data model -/

/-- The Go `error` values met by the controller, as `errors.IsNotFound` sees
them: the reason (`metav1.StatusReason`) and the HTTP code of an API status
error, and a message.  An error that is not an API status has the unknown
reason (the empty string) and code 0. -/
structure Error where
  Reason : String
  Code : Int
  Message : String
deriving DecidableEq, Repr

deriving instance DecidableEq for Except

/-- The table `knownReasons` of `k8s.io/apimachinery/pkg/api/errors`: every
status reason except the unknown one. -/
def knownReasons : List String :=
  ["Unauthorized", "Forbidden", "NotFound", "AlreadyExists", "Conflict", "Gone", "Invalid",
    "ServerTimeout", "Timeout", "TooManyRequests", "BadRequest", "MethodNotAllowed",
    "NotAcceptable", "RequestEntityTooLarge", "UnsupportedMediaType", "InternalError",
    "Expired", "ServiceUnavailable"]

/-- The library check `errors.IsNotFound`: the reason is `NotFound`, or the reason
is not a known one and the code is 404.  The controller takes the check from
its collaborators (`Env.IsNotFound`); this is the implementation the reference
collaborators use. -/
def IsNotFound (err : Error) : Bool :=
  if err.Reason = "NotFound" then true
  else if ¬ (err.Reason ∈ knownReasons) ∧ err.Code = 404 then true
  else false

/-- The key `types.NamespacedName`. -/
structure NamespacedName where
  Namespace : String
  Name : String
deriving DecidableEq, Repr

/-- The request `ctrl.Request`. -/
structure Request where
  NamespacedName : NamespacedName
deriving DecidableEq, Repr

/-- The duration `time.Duration`, in nanoseconds. -/
abbrev Duration := Int

/-- The constant `time.Second`. -/
def Second : Duration := 1000000000

/-- The result `ctrl.Result`; `ctrl.Result{}` is the value with both fields zero. -/
structure Result where
  Requeue : Bool := false
  RequeueAfter : Duration := 0
deriving DecidableEq, Repr

/-- The spec of a Capp: only `Site` is read by the controller. -/
structure CappSpec where
  Site : String
deriving DecidableEq, Repr

/-- The workload `rcsv1alpha1.Capp`: its key, its annotation map (as an
association list), its spec, and the resolved cluster reference of its status. -/
structure Capp where
  Namespace : String
  Name : String
  Annotations : List (String × String)
  Spec : CappSpec
  StatusSite : String
deriving DecidableEq, Repr

/-- The policy object `clusterv1beta1.Placement`; the controller only fetches it. -/
structure Placement where
  Namespace : String
  Name : String
deriving DecidableEq, Repr

/-- One elected cluster of a `PlacementDecision`. -/
structure ClusterDecision where
  ClusterName : String
  Reason : String
deriving DecidableEq, Repr

/-- The object `clusterv1beta1.PlacementDecision`: the placement it belongs to
(its placement label) and its status decisions. -/
structure PlacementDecision where
  Namespace : String
  Name : String
  PlacementLabel : String
  Decisions : List ClusterDecision
deriving DecidableEq, Repr

/-- The list `clusterv1beta1.PlacementDecisionList`. -/
structure PlacementDecisionList where
  Items : List PlacementDecision
deriving DecidableEq, Repr

/-- The configuration fields of `ServicePlacementReconciler` (the embedded client
is the `Env` argument of the functions below). -/
structure ServicePlacementReconciler where
  Placements : List String
  PlacementsNamespace : String
deriving DecidableEq, Repr

/-- The collaborators of the controller over a remote state `σ`: the two reads
of `r.Client.Get`, the library check `errors.IsNotFound`, and the helpers of
`internals/utils`.  Reads leave the state alone; `UpdateCappDestination` is the
only call that may change it. -/
structure Env (σ : Type) where
  IsNotFound : Error → Bool
  GetCapp : σ → NamespacedName → Except Error Capp
  GetPlacement : σ → NamespacedName → Except Error Placement
  GetPlacementDecisionList : σ → Capp → String → String → PlacementDecisionList × Option Error
  GetDecisionClusterName : PlacementDecisionList → String
  UpdateCappDestination : σ → Capp → String → σ × Option Error
  ContainesPlacementAnnotation : Capp → Bool

/-- A call made during a run, with its arguments. -/
inductive Call where
  | getCapp (key : NamespacedName)
  | pickDecision (capp : Capp)
  | getPlacement (key : NamespacedName)
  | listDecisions (capp : Capp) (placementRef : String) (ns : String)
  | updateDestination (capp : Capp) (target : String)
deriving DecidableEq, Repr

/-- Whether a call is a destination update. -/
def Call.isUpdate : Call → Bool
  | .updateDestination _ _ => true
  | _ => false

/-- Whether a call is a destination update with the given target. -/
def Call.isUpdateTo (target : String) : Call → Bool
  | .updateDestination _ t => t == target
  | _ => false

/-- Whether a call is a Placement fetch or a PlacementDecision listing. -/
def Call.isPlacementRead : Call → Bool
  | .getPlacement _ => true
  | .listDecisions _ _ _ => true
  | _ => false

/-- Whether a call is the invocation of `pickDecision`. -/
def Call.isPick : Call → Bool
  | .pickDecision _ => true
  | _ => false

/-- A Go run-time panic of the controller: an index out of range, or a failed
type assertion on an event payload. -/
inductive Panic where
  | indexOutOfRange (index : Nat) (len : Nat)
  | typeAssertion (kind : String)
deriving DecidableEq, Repr

/-- What `pickDecision` does: it returns `(string, error)` or panics. -/
inductive PickOutcome where
  | returned (cluster : String) (err : Option Error)
  | panicked (p : Panic)
deriving DecidableEq, Repr

/-- A run of `pickDecision`: its outcome and the calls it made. -/
structure PickRun where
  outcome : PickOutcome
  calls : List Call
deriving DecidableEq, Repr

/-- What `Reconcile` does: it returns `(ctrl.Result, error)` or panics. -/
inductive Outcome where
  | returned (res : Result) (err : Option Error)
  | panicked (p : Panic)
deriving DecidableEq, Repr

/-- A run of `Reconcile`: its outcome, the remote state it leaves, and the calls
it made. -/
structure Run (σ : Type) where
  outcome : Outcome
  state : σ
  calls : List Call

/-! ## The controller -/

/-- The function `slices.Contains` of `k8s.io/utils/strings/slices`. -/
def Contains : List String → String → Bool
  | [], _ => false
  | x :: rest, v => if x = v then true else Contains rest v

/-- The head of `pickDecision` (lines 94-97): the policy name it works with.
Reading `r.Placements[0]` panics when the list is empty. -/
def pickPlacementRef (r : ServicePlacementReconciler) (capp : Capp) : Except Panic String :=
  if capp.Spec.Site = "" then
    match r.Placements with
    | [] => .error (.indexOutOfRange 0 0)
    | first :: _ => .ok first
  else .ok capp.Spec.Site

/-- The method `pickDecision` (lines 93-116). -/
def pickDecision {σ : Type} (env : Env σ) (r : ServicePlacementReconciler) (s : σ)
    (capp : Capp) : PickRun :=
  match pickPlacementRef r capp with
  | .error p => ⟨.panicked p, []⟩
  | .ok placementRef =>
    let key : NamespacedName := ⟨r.PlacementsNamespace, placementRef⟩
    match env.GetPlacement s key with
    | .error err => ⟨.returned "" (some err), [.getPlacement key]⟩
    | .ok _ =>
      let listed := env.GetPlacementDecisionList s capp placementRef r.PlacementsNamespace
      let placementDecisions := listed.1
      let err := listed.2
      let calls := [Call.getPlacement key,
        Call.listDecisions capp placementRef r.PlacementsNamespace]
      if placementDecisions.Items.length = 0 then
        ⟨.returned "requeue" none, calls⟩
      else
        match err with
        | some e => ⟨.returned "" (some e), calls⟩
        | none =>
          let managedClusterName := env.GetDecisionClusterName placementDecisions
          if managedClusterName = "" then
            ⟨.returned "requeue" none, calls⟩
          else
            ⟨.returned managedClusterName none, calls⟩

/-- The tail of `Reconcile` (lines 56-60): the destination update and the return
that follows it. -/
def updateAndReturn {σ : Type} (env : Env σ) (s : σ) (capp : Capp) (placementRef : String)
    (before : List Call) : Run σ :=
  let upd := env.UpdateCappDestination s capp placementRef
  let calls := before ++ [Call.updateDestination capp placementRef]
  match upd.2 with
  | some err => ⟨.returned {} (some err), upd.1, calls⟩
  | none => ⟨.returned {} none, upd.1, calls⟩

/-- The method `Reconcile` (lines 36-61). -/
def Reconcile {σ : Type} (env : Env σ) (r : ServicePlacementReconciler) (s : σ)
    (req : Request) : Run σ :=
  match env.GetCapp s req.NamespacedName with
  | .error err =>
    if env.IsNotFound err then
      ⟨.returned {} none, s, [.getCapp req.NamespacedName]⟩
    else
      ⟨.returned {} (some err), s, [.getCapp req.NamespacedName]⟩
  | .ok capp =>
    let placementRef := capp.Spec.Site
    if placementRef = "" ∨ Contains r.Placements placementRef = true then
      let pick := pickDecision env r s capp
      let calls := [Call.getCapp req.NamespacedName, Call.pickDecision capp] ++ pick.calls
      match pick.outcome with
      | .panicked p => ⟨.panicked p, s, calls⟩
      | .returned _ (some err) => ⟨.returned {} (some err), s, calls⟩
      | .returned cluster none =>
        if cluster = "requeue" then
          ⟨.returned { RequeueAfter := 10 * Second * 2 } none, s, calls⟩
        else
          updateAndReturn env s capp cluster calls
    else
      updateAndReturn env s capp placementRef [Call.getCapp req.NamespacedName]

/-! ## The event filter -/

/-- The payload `client.Object` of an event: a Capp, or an object of another kind. -/
inductive Object where
  | capp (c : Capp)
  | other (kind : String)
deriving DecidableEq, Repr

/-- The event `event.CreateEvent`. -/
structure CreateEvent where
  Object : Object
deriving DecidableEq, Repr

/-- The event `event.UpdateEvent`. -/
structure UpdateEvent where
  ObjectOld : Object
  ObjectNew : Object
deriving DecidableEq, Repr

/-- The event `event.DeleteEvent`. -/
structure DeleteEvent where
  Object : Object
  DeleteStateUnknown : Bool
deriving DecidableEq, Repr

/-- The type assertion `obj.(*rcsv1alpha1.Capp)`, which panics on another kind. -/
def assertCapp : Object → Except Panic Capp
  | .capp c => .ok c
  | .other kind => .error (.typeAssertion kind)

/-- The three predicates of `predicate.Funcs` that the controller sets. -/
structure Funcs where
  UpdateFunc : UpdateEvent → Except Panic Bool
  CreateFunc : CreateEvent → Except Panic Bool
  DeleteFunc : DeleteEvent → Except Panic Bool

/-- The value `ServicePredicateFunctions` (lines 63-78). -/
def ServicePredicateFunctions {σ : Type} (env : Env σ) : Funcs where
  UpdateFunc := fun e =>
    match assertCapp e.ObjectNew with
    | .error p => .error p
    | .ok newCapp => .ok (! Env.ContainesPlacementAnnotation env newCapp)
  CreateFunc := fun e =>
    match assertCapp e.Object with
    | .error p => .error p
    | .ok capp => .ok (! Env.ContainesPlacementAnnotation env capp)
  DeleteFunc := fun e =>
    match assertCapp e.Object with
    | .error p => .error p
    | .ok capp => .ok (! Env.ContainesPlacementAnnotation env capp)

/-! ## Reference collaborators

Concrete implementations of the collaborators, used to run the controller on
explicit inputs. -/

/-- Modelled from the spec: the helper `utils.GetDecisionClusterName` is not in
the controller file.  "Choose a cluster recorded in the decision entries; if
none can be extracted, treat as requeue": the first recorded cluster name, or
the empty string when no decision entry exists. -/
def firstClusterName (l : PlacementDecisionList) : String :=
  match l.Items.flatMap (fun pd => pd.Decisions) with
  | [] => ""
  | d :: _ => d.ClusterName

/-- Modelled from the spec: the helper `utils.ContainesPlacementAnnotation` is not
in the controller file.  "Presence of a specific placement annotation marks it
as already placed"; the annotation key is a parameter. -/
def hasAnnotationKey (key : String) (capp : Capp) : Bool :=
  capp.Annotations.any (fun kv => kv.1 == key)

/-- Fixed answers of the collaborators, whatever the arguments. -/
structure Script where
  capp : Except Error Capp
  placement : Except Error Placement
  listed : PlacementDecisionList × Option Error
  updateErr : Option Error

/-- Collaborators that answer from a script; the remote state is trivial. -/
def scripted (sc : Script) : Env Unit where
  IsNotFound := IsNotFound
  GetCapp := fun _ _ => sc.capp
  GetPlacement := fun _ _ => sc.placement
  GetPlacementDecisionList := fun _ _ _ _ => sc.listed
  GetDecisionClusterName := firstClusterName
  UpdateCappDestination := fun _ _ _ => ((), sc.updateErr)
  ContainesPlacementAnnotation := hasAnnotationKey "placement"

/-- The objects of the API store. -/
structure Store where
  Capps : List Capp
  Placements : List Placement
  PlacementDecisions : List PlacementDecision
deriving DecidableEq, Repr

/-- Whether a Capp has the given key. -/
def Capp.hasKey (key : NamespacedName) (c : Capp) : Bool :=
  c.Namespace == key.Namespace && c.Name == key.Name

/-- Fetch-by-key of a Capp; a missing object is a `NotFound` error. -/
def Store.getCapp (s : Store) (key : NamespacedName) : Except Error Capp :=
  match s.Capps.find? (Capp.hasKey key) with
  | some c => .ok c
  | none => .error ⟨"NotFound", 404, key.Name⟩

/-- Fetch-by-key of a Placement; a missing object is a `NotFound` error. -/
def Store.getPlacement (s : Store) (key : NamespacedName) : Except Error Placement :=
  match s.Placements.find? (fun p => p.Namespace == key.Namespace && p.Name == key.Name) with
  | some p => .ok p
  | none => .error ⟨"NotFound", 404, key.Name⟩

/-- Modelled from the spec: the helper `utils.GetPlacementDecisionList` is not in
the controller file.  "List-by-label/selector for PlacementDecision scoped to a
policy and namespace." -/
def Store.listDecisions (s : Store) (placementRef : String) (ns : String) :
    PlacementDecisionList × Option Error :=
  (⟨s.PlacementDecisions.filter
      (fun pd => pd.Namespace == ns && pd.PlacementLabel == placementRef)⟩, none)

/-- Set a key of an annotation map. -/
def annotate (key : String) (value : String) (m : List (String × String)) :
    List (String × String) :=
  (key, value) :: m.filter (fun kv => !(kv.1 == key))

/-- Modelled from the spec: what `utils.UpdateCappDestination` writes.  It "sets
the resolved cluster reference and the placement annotation" of the workload to
the cluster name. -/
def withDestination (annotationKey : String) (capp : Capp) (cluster : String) : Capp :=
  { capp with
    StatusSite := cluster
    Annotations := annotate annotationKey cluster capp.Annotations }

/-- Modelled from the spec: the helper `utils.UpdateCappDestination` is not in the
controller file.  The write is atomic: either it is refused (`rejects`, or the
object is gone) and the store is unchanged, or the stored workload with the
key of `capp` becomes `capp` with its destination set. -/
def Store.updateDestination (annotationKey : String) (rejects : Capp → String → Option Error)
    (s : Store) (capp : Capp) (cluster : String) : Store × Option Error :=
  match rejects capp cluster with
  | some err => (s, some err)
  | none =>
    if s.Capps.any (Capp.hasKey ⟨capp.Namespace, capp.Name⟩) then
      ({ s with Capps := s.Capps.map (fun c =>
          if Capp.hasKey ⟨capp.Namespace, capp.Name⟩ c then
            withDestination annotationKey capp cluster
          else c) }, none)
    else (s, some ⟨"NotFound", 404, capp.Name⟩)

/-- Collaborators over an explicit store. -/
def storeEnv (annotationKey : String) (rejects : Capp → String → Option Error) : Env Store where
  IsNotFound := IsNotFound
  GetCapp := Store.getCapp
  GetPlacement := Store.getPlacement
  GetPlacementDecisionList := fun s _ placementRef ns => s.listDecisions placementRef ns
  GetDecisionClusterName := firstClusterName
  UpdateCappDestination := Store.updateDestination annotationKey rejects
  ContainesPlacementAnnotation := hasAnnotationKey annotationKey

/-! ## Sample inputs -/

/-- A workload `default/web` with the given site and no annotation. -/
def sampleCapp (site : String) : Capp :=
  ⟨"default", "web", [], ⟨site⟩, ""⟩

/-- The request for `default/web`. -/
def sampleRequest : Request :=
  ⟨⟨"default", "web"⟩⟩

/-- A reconciler with one configured policy, `primary`. -/
def sampleReconciler : ServicePlacementReconciler :=
  ⟨["primary"], "policies"⟩

/-- The Placement `policies/primary`. -/
def samplePlacement : Placement :=
  ⟨"policies", "primary"⟩

/-- A decision list with one PlacementDecision electing the given clusters. -/
def sampleDecisions (clusters : List String) : PlacementDecisionList :=
  ⟨[⟨"policies", "primary-decision-1", "primary", clusters.map (fun c => ⟨c, ""⟩)⟩]⟩

/-- A store holding the workload `default/web` with the given site, the Placement
`policies/primary` and no PlacementDecision. -/
def sampleStore (site : String) : Store :=
  ⟨[sampleCapp site], [samplePlacement], []⟩

/-- An update collaborator that refuses nothing. -/
def acceptAll : Capp → String → Option Error :=
  fun _ _ => none

/-- A server-side failure that is not `NotFound`. -/
def sampleFailure : Error :=
  ⟨"InternalError", 500, "etcd unavailable"⟩

/-! ## Basic facts -/

theorem contains_iff (l : List String) (v : String) : Contains l v = true ↔ v ∈ l := by
  induction l with
  | nil => simp [Contains]
  | cons x rest ih =>
    by_cases h : x = v
    · simp [Contains, h]
    · have h2 : ¬ v = x := fun e => h e.symm
      simp [Contains, h, h2, ih]

theorem contains_eq_false_iff (l : List String) (v : String) :
    Contains l v = false ↔ v ∉ l := by
  rw [← contains_iff]; simp

/-! ## The reconciler -/

/-- C1: for a workload whose site is non-empty and not a configured policy name,
`Reconcile` makes exactly two calls, the workload fetch and one destination
update whose target is the site itself: `pickDecision` is not invoked, no
Placement is fetched and no PlacementDecision is listed.  When the update
reports no error the outcome is the empty result with a nil error. -/
theorem reconcile_resolved_site {σ : Type} (env : Env σ) (r : ServicePlacementReconciler)
    (s : σ) (req : Request) (capp : Capp)
    (hget : env.GetCapp s req.NamespacedName = .ok capp)
    (hne : capp.Spec.Site ≠ "")
    (hnot : capp.Spec.Site ∉ r.Placements) :
    (Reconcile env r s req).calls
        = [Call.getCapp req.NamespacedName, Call.updateDestination capp capp.Spec.Site]
      ∧ (Reconcile env r s req).calls.countP Call.isPick = 0
      ∧ (Reconcile env r s req).calls.countP Call.isPlacementRead = 0
      ∧ (Reconcile env r s req).calls.countP Call.isUpdate = 1
      ∧ (Reconcile env r s req).calls.countP (Call.isUpdateTo capp.Spec.Site) = 1
      ∧ ((env.UpdateCappDestination s capp capp.Spec.Site).2 = none →
          (Reconcile env r s req).outcome = .returned {} none) := by
  have hc : Contains r.Placements capp.Spec.Site = false :=
    (contains_eq_false_iff _ _).2 hnot
  have hcalls : (Reconcile env r s req).calls
      = [Call.getCapp req.NamespacedName, Call.updateDestination capp capp.Spec.Site] := by
    simp only [Reconcile, hget, hne, hc, updateAndReturn]
    cases (env.UpdateCappDestination s capp capp.Spec.Site).2 <;> simp
  refine ⟨hcalls, ?_, ?_, ?_, ?_, ?_⟩
  · rw [hcalls]; simp [Call.isPick]
  · rw [hcalls]; simp [Call.isPlacementRead]
  · rw [hcalls]; simp [Call.isUpdate]
  · rw [hcalls]; simp [Call.isUpdateTo]
  · intro hok
    simp [Reconcile, hget, hne, hc, updateAndReturn, hok]

/-- The witness of C1: the workload `default/web` with site `east-1` under the
single policy `primary`. -/
theorem reconcile_resolved_site_witness :
    (Reconcile (scripted ⟨.ok (sampleCapp "east-1"), .ok samplePlacement,
        (sampleDecisions ["cluster-a"], none), none⟩) sampleReconciler () sampleRequest).calls
      = [Call.getCapp sampleRequest.NamespacedName,
          Call.updateDestination (sampleCapp "east-1") "east-1"] :=
  (reconcile_resolved_site (scripted ⟨.ok (sampleCapp "east-1"), .ok samplePlacement,
      (sampleDecisions ["cluster-a"], none), none⟩) sampleReconciler () sampleRequest
    (sampleCapp "east-1") rfl (by decide) (by decide)).1

/-- C5: when the workload fetch fails with an error that `errors.IsNotFound`
accepts, `Reconcile` returns the empty result and a nil error; the fetch is
its only call (no Placement fetch, no PlacementDecision listing, no
destination update) and the remote state is untouched.  This holds for every
implementation of the check. -/
theorem reconcile_not_found {σ : Type} (env : Env σ) (r : ServicePlacementReconciler)
    (s : σ) (req : Request) (err : Error)
    (hget : env.GetCapp s req.NamespacedName = .error err)
    (hnf : env.IsNotFound err = true) :
    (Reconcile env r s req).outcome = .returned {} none
      ∧ (Reconcile env r s req).calls = [Call.getCapp req.NamespacedName]
      ∧ (Reconcile env r s req).calls.countP Call.isPick = 0
      ∧ (Reconcile env r s req).calls.countP Call.isPlacementRead = 0
      ∧ (Reconcile env r s req).calls.countP Call.isUpdate = 0
      ∧ (Reconcile env r s req).state = s := by
  have hcalls : (Reconcile env r s req).calls = [Call.getCapp req.NamespacedName] := by
    simp [Reconcile, hget, hnf]
  refine ⟨?_, hcalls, ?_, ?_, ?_, ?_⟩
  · simp [Reconcile, hget, hnf]
  · rw [hcalls]; simp [Call.isPick]
  · rw [hcalls]; simp [Call.isPlacementRead]
  · rw [hcalls]; simp [Call.isUpdate]
  · simp [Reconcile, hget, hnf]

/-- The witness of C5: the workload is gone from the store, reported once with
the reason `NotFound` and once with an unknown reason and code 404. -/
theorem reconcile_not_found_witness :
    (Reconcile (scripted ⟨.error ⟨"NotFound", 404, "web"⟩, .ok samplePlacement,
        (sampleDecisions ["cluster-a"], none), none⟩) sampleReconciler () sampleRequest).outcome
      = .returned {} none
    ∧ (Reconcile (scripted ⟨.error ⟨"", 404, "web"⟩, .ok samplePlacement,
        (sampleDecisions ["cluster-a"], none), none⟩) sampleReconciler () sampleRequest).outcome
      = .returned {} none :=
  ⟨(reconcile_not_found (scripted ⟨.error ⟨"NotFound", 404, "web"⟩, .ok samplePlacement,
      (sampleDecisions ["cluster-a"], none), none⟩) sampleReconciler () sampleRequest
    ⟨"NotFound", 404, "web"⟩ rfl (by decide)).1,
   (reconcile_not_found (scripted ⟨.error ⟨"", 404, "web"⟩, .ok samplePlacement,
      (sampleDecisions ["cluster-a"], none), none⟩) sampleReconciler () sampleRequest
    ⟨"", 404, "web"⟩ rfl (by decide)).1⟩

/-- C6: on a Capp payload each of the create, update and delete predicates
returns (without panicking) the negation of `ContainesPlacementAnnotation` of that
Capp, so each admits the event exactly when the workload does not carry the
placement annotation and the three agree; the update predicate reads the new
object, whatever the old object is. -/
theorem predicates_admit_iff_unplaced {σ : Type} (env : Env σ) (capp : Capp)
    (old : Object) (unknown : Bool) :
    (ServicePredicateFunctions env).CreateFunc ⟨.capp capp⟩
        = .ok (! Env.ContainesPlacementAnnotation env capp)
      ∧ (ServicePredicateFunctions env).UpdateFunc ⟨old, .capp capp⟩
        = .ok (! Env.ContainesPlacementAnnotation env capp)
      ∧ (ServicePredicateFunctions env).DeleteFunc ⟨.capp capp, unknown⟩
        = .ok (! Env.ContainesPlacementAnnotation env capp)
      ∧ ((ServicePredicateFunctions env).CreateFunc ⟨.capp capp⟩ = .ok true
          ↔ Env.ContainesPlacementAnnotation env capp = false)
      ∧ ((ServicePredicateFunctions env).UpdateFunc ⟨old, .capp capp⟩ = .ok true
          ↔ Env.ContainesPlacementAnnotation env capp = false)
      ∧ ((ServicePredicateFunctions env).DeleteFunc ⟨.capp capp, unknown⟩ = .ok true
          ↔ Env.ContainesPlacementAnnotation env capp = false) := by
  simp [ServicePredicateFunctions, assertCapp]

/-- C2 as stated fails: with site empty, policy `primary`, a non-empty decision
list and a selection that yields the non-empty cluster name `requeue`, the
update is available and would succeed, yet `Reconcile` makes no destination
update and returns the 20-second requeue. -/
theorem reconcile_sentinel_cluster_counterexample :
    (scripted ⟨.ok (sampleCapp ""), .ok samplePlacement,
        (sampleDecisions ["requeue"], none), none⟩).GetCapp () sampleRequest.NamespacedName
        = .ok (sampleCapp "")
      ∧ (sampleCapp "").Spec.Site = ""
      ∧ pickPlacementRef sampleReconciler (sampleCapp "") = .ok "primary"
      ∧ (scripted ⟨.ok (sampleCapp ""), .ok samplePlacement,
          (sampleDecisions ["requeue"], none), none⟩).GetPlacement ()
            ⟨sampleReconciler.PlacementsNamespace, "primary"⟩ = .ok samplePlacement
      ∧ (scripted ⟨.ok (sampleCapp ""), .ok samplePlacement,
          (sampleDecisions ["requeue"], none), none⟩).GetPlacementDecisionList ()
            (sampleCapp "") "primary" sampleReconciler.PlacementsNamespace
          = (sampleDecisions ["requeue"], none)
      ∧ (sampleDecisions ["requeue"]).Items ≠ []
      ∧ (scripted ⟨.ok (sampleCapp ""), .ok samplePlacement,
          (sampleDecisions ["requeue"], none), none⟩).GetDecisionClusterName
            (sampleDecisions ["requeue"]) = "requeue"
      ∧ "requeue" ≠ ""
      ∧ ((scripted ⟨.ok (sampleCapp ""), .ok samplePlacement,
          (sampleDecisions ["requeue"], none), none⟩).UpdateCappDestination ()
            (sampleCapp "") "requeue").2 = none
      ∧ (Reconcile (scripted ⟨.ok (sampleCapp ""), .ok samplePlacement,
          (sampleDecisions ["requeue"], none), none⟩) sampleReconciler ()
            sampleRequest).calls.countP Call.isUpdate = 0
      ∧ (Reconcile (scripted ⟨.ok (sampleCapp ""), .ok samplePlacement,
          (sampleDecisions ["requeue"], none), none⟩) sampleReconciler ()
            sampleRequest).outcome = .returned ⟨false, 20000000000⟩ none
      ∧ (Reconcile (scripted ⟨.ok (sampleCapp ""), .ok samplePlacement,
          (sampleDecisions ["requeue"], none), none⟩) sampleReconciler ()
            sampleRequest).outcome ≠ .returned {} none := by
  decide

/-- C2, amended: for a workload whose site is empty or a configured policy name,
when the Placement of the effective policy is fetched, the listing for it
returns a non-empty list without error and the selection yields a cluster
name `c` that is neither empty nor the sentinel `requeue`, `Reconcile` makes
exactly one destination update, with target `c`, as its last call; when that
update reports no error the outcome is the empty result with a nil error. -/
theorem reconcile_selected_cluster {σ : Type} (env : Env σ) (r : ServicePlacementReconciler)
    (s : σ) (req : Request) (capp : Capp) (ref : String) (pl : Placement)
    (l : PlacementDecisionList) (c : String)
    (hget : env.GetCapp s req.NamespacedName = .ok capp)
    (hsite : capp.Spec.Site = "" ∨ capp.Spec.Site ∈ r.Placements)
    (href : pickPlacementRef r capp = .ok ref)
    (hpl : env.GetPlacement s ⟨r.PlacementsNamespace, ref⟩ = .ok pl)
    (hlist : env.GetPlacementDecisionList s capp ref r.PlacementsNamespace = (l, none))
    (hitems : l.Items ≠ [])
    (hsel : env.GetDecisionClusterName l = c)
    (hc : c ≠ "")
    (hsentinel : c ≠ "requeue") :
    (Reconcile env r s req).calls
        = [Call.getCapp req.NamespacedName, Call.pickDecision capp,
            Call.getPlacement ⟨r.PlacementsNamespace, ref⟩,
            Call.listDecisions capp ref r.PlacementsNamespace,
            Call.updateDestination capp c]
      ∧ (Reconcile env r s req).calls.countP Call.isUpdate = 1
      ∧ (Reconcile env r s req).calls.countP (Call.isUpdateTo c) = 1
      ∧ ((env.UpdateCappDestination s capp c).2 = none →
          (Reconcile env r s req).outcome = .returned {} none) := by
  have hcond : capp.Spec.Site = "" ∨ Contains r.Placements capp.Spec.Site = true :=
    hsite.imp id (contains_iff _ _).2
  have hlen : ¬ l.Items.length = 0 := by
    intro h; exact hitems (List.length_eq_zero.1 h)
  subst hsel
  have hcalls : (Reconcile env r s req).calls
      = [Call.getCapp req.NamespacedName, Call.pickDecision capp,
          Call.getPlacement ⟨r.PlacementsNamespace, ref⟩,
          Call.listDecisions capp ref r.PlacementsNamespace,
          Call.updateDestination capp (env.GetDecisionClusterName l)] := by
    simp only [Reconcile, hget, hcond, pickDecision, href, hpl, hlist, hlen, hc, hsentinel,
      updateAndReturn, if_true, if_false]
    cases (env.UpdateCappDestination s capp (env.GetDecisionClusterName l)).2 <;> simp
  refine ⟨hcalls, ?_, ?_, ?_⟩
  · rw [hcalls]; simp [Call.isUpdate]
  · rw [hcalls]; simp [Call.isUpdateTo]
  · intro hok
    simp [Reconcile, hget, hcond, pickDecision, href, hpl, hlist, hlen, hc, hsentinel,
      updateAndReturn, hok]

/-- The witness of C2 amended: site empty, one policy `primary`, decision list
`["cluster-a"]`: one write with target `cluster-a`. -/
theorem reconcile_selected_cluster_witness :
    (Reconcile (scripted ⟨.ok (sampleCapp ""), .ok samplePlacement,
        (sampleDecisions ["cluster-a"], none), none⟩) sampleReconciler ()
          sampleRequest).calls.countP (Call.isUpdateTo "cluster-a") = 1 :=
  (reconcile_selected_cluster (scripted ⟨.ok (sampleCapp ""), .ok samplePlacement,
      (sampleDecisions ["cluster-a"], none), none⟩) sampleReconciler () sampleRequest
    (sampleCapp "") "primary" samplePlacement (sampleDecisions ["cluster-a"]) "cluster-a"
    rfl (by decide) (by decide) rfl rfl (by decide) (by decide) (by decide) (by decide)).2.2.1

/-- C3: for a workload whose site is empty or a configured policy name, when the
Placement of the effective policy is fetched and either the listed
PlacementDecision list is empty (whatever error accompanies it), or the
listing reports no error and the selection on its list yields the empty name,
`Reconcile` returns a nil error with `RequeueAfter` of 20 seconds
(20000000000 ns), makes no destination update and leaves the state alone. -/
theorem reconcile_requeue_without_decision {σ : Type} (env : Env σ)
    (r : ServicePlacementReconciler) (s : σ) (req : Request) (capp : Capp) (ref : String)
    (pl : Placement)
    (hget : env.GetCapp s req.NamespacedName = .ok capp)
    (hsite : capp.Spec.Site = "" ∨ capp.Spec.Site ∈ r.Placements)
    (href : pickPlacementRef r capp = .ok ref)
    (hpl : env.GetPlacement s ⟨r.PlacementsNamespace, ref⟩ = .ok pl)
    (hnone : (env.GetPlacementDecisionList s capp ref r.PlacementsNamespace).1.Items = []
      ∨ ((env.GetPlacementDecisionList s capp ref r.PlacementsNamespace).2 = none
        ∧ env.GetDecisionClusterName
            (env.GetPlacementDecisionList s capp ref r.PlacementsNamespace).1 = "")) :
    (Reconcile env r s req).outcome = .returned ⟨false, 20000000000⟩ none
      ∧ (20000000000 : Duration) = 20 * Second
      ∧ (Reconcile env r s req).calls.countP Call.isUpdate = 0
      ∧ (Reconcile env r s req).state = s := by
  have hcond : capp.Spec.Site = "" ∨ Contains r.Placements capp.Spec.Site = true :=
    hsite.imp id (contains_iff _ _).2
  have hsec : (20000000000 : Duration) = 20 * Second := by decide
  rcases hnone with hempty | ⟨herr, hsel⟩
  · simp [Reconcile, hget, hcond, pickDecision, href, hpl, hempty, Second, Call.isUpdate]
  · by_cases hlen : (env.GetPlacementDecisionList s capp ref r.PlacementsNamespace).1.Items = []
    · simp [Reconcile, hget, hcond, pickDecision, href, hpl, hlen, Second, Call.isUpdate]
    · simp [Reconcile, hget, hcond, pickDecision, href, hpl, hlen, herr, hsel, Second,
        Call.isUpdate]

/-- The witness of C3: site empty, one policy `primary`, empty decision list. -/
theorem reconcile_requeue_without_decision_witness :
    (Reconcile (scripted ⟨.ok (sampleCapp ""), .ok samplePlacement, (⟨[]⟩, none), none⟩)
        sampleReconciler () sampleRequest).outcome = .returned ⟨false, 20000000000⟩ none :=
  (reconcile_requeue_without_decision (scripted ⟨.ok (sampleCapp ""), .ok samplePlacement,
      (⟨[]⟩, none), none⟩) sampleReconciler () sampleRequest (sampleCapp "") "primary"
    samplePlacement rfl (by decide) (by decide) rfl (Or.inl rfl)).1

/-- C4, the code at the failing input: the listing fails with an error and an
empty list.  `pickDecision` returns the sentinel `requeue` with a nil error,
and `Reconcile` returns the 20-second requeue with a nil error: the listing
error is not returned. -/
theorem listing_error_with_empty_list_is_dropped :
    (scripted ⟨.ok (sampleCapp ""), .ok samplePlacement,
        (⟨[]⟩, some sampleFailure), none⟩).GetPlacementDecisionList ()
          (sampleCapp "") "primary" "policies" = (⟨[]⟩, some sampleFailure)
      ∧ (pickDecision (scripted ⟨.ok (sampleCapp ""), .ok samplePlacement,
          (⟨[]⟩, some sampleFailure), none⟩) sampleReconciler () (sampleCapp "")).outcome
          = .returned "requeue" none
      ∧ (Reconcile (scripted ⟨.ok (sampleCapp ""), .ok samplePlacement,
          (⟨[]⟩, some sampleFailure), none⟩) sampleReconciler () sampleRequest).outcome
          = .returned ⟨false, 20000000000⟩ none := by
  decide

theorem pickDecision_calls_of_fetch_error {σ : Type} (env : Env σ)
    (r : ServicePlacementReconciler) (s : σ) (capp : Capp) (ref : String) (err : Error)
    (href : pickPlacementRef r capp = .ok ref)
    (hpl : env.GetPlacement s ⟨r.PlacementsNamespace, ref⟩ = .error err) :
    pickDecision env r s capp
      = ⟨.returned "" (some err), [Call.getPlacement ⟨r.PlacementsNamespace, ref⟩]⟩ := by
  simp only [pickDecision, href, hpl]

theorem pickDecision_calls_of_fetch_ok {σ : Type} (env : Env σ)
    (r : ServicePlacementReconciler) (s : σ) (capp : Capp) (ref : String) (pl : Placement)
    (href : pickPlacementRef r capp = .ok ref)
    (hpl : env.GetPlacement s ⟨r.PlacementsNamespace, ref⟩ = .ok pl) :
    (pickDecision env r s capp).calls
      = [Call.getPlacement ⟨r.PlacementsNamespace, ref⟩,
          Call.listDecisions capp ref r.PlacementsNamespace] := by
  simp only [pickDecision, href, hpl]
  split
  · rfl
  · split
    · rfl
    · split <;> rfl

/-- C7: with a non-empty list of configured policy names, `pickDecision` works
with the workload's site when it is non-empty and with the first configured
name when the site is empty.  Its first call fetches the Placement of that
name in `PlacementsNamespace`; when the fetch fails that is its only call,
and when it succeeds the one further call lists the PlacementDecisions for
the same name and namespace. -/
theorem pick_uses_effective_policy {σ : Type} (env : Env σ) (r : ServicePlacementReconciler)
    (s : σ) (capp : Capp) (first : String) (rest : List String)
    (hfirst : r.Placements = first :: rest) :
    pickPlacementRef r capp = .ok (if capp.Spec.Site = "" then first else capp.Spec.Site)
      ∧ (pickDecision env r s capp).calls.head?
          = some (Call.getPlacement ⟨r.PlacementsNamespace,
              if capp.Spec.Site = "" then first else capp.Spec.Site⟩)
      ∧ (∀ err, env.GetPlacement s ⟨r.PlacementsNamespace,
            if capp.Spec.Site = "" then first else capp.Spec.Site⟩ = .error err →
          (pickDecision env r s capp).calls
            = [Call.getPlacement ⟨r.PlacementsNamespace,
                if capp.Spec.Site = "" then first else capp.Spec.Site⟩])
      ∧ (∀ pl, env.GetPlacement s ⟨r.PlacementsNamespace,
            if capp.Spec.Site = "" then first else capp.Spec.Site⟩ = .ok pl →
          (pickDecision env r s capp).calls
            = [Call.getPlacement ⟨r.PlacementsNamespace,
                if capp.Spec.Site = "" then first else capp.Spec.Site⟩,
               Call.listDecisions capp
                (if capp.Spec.Site = "" then first else capp.Spec.Site)
                r.PlacementsNamespace]) := by
  have href : pickPlacementRef r capp
      = .ok (if capp.Spec.Site = "" then first else capp.Spec.Site) := by
    unfold pickPlacementRef
    rw [hfirst]
    by_cases h : capp.Spec.Site = "" <;> simp [h]
  generalize (if capp.Spec.Site = "" then first else capp.Spec.Site) = ref at href ⊢
  refine ⟨href, ?_, ?_, ?_⟩
  · cases hpl : env.GetPlacement s ⟨r.PlacementsNamespace, ref⟩ with
    | error e => rw [pickDecision_calls_of_fetch_error env r s capp ref e href hpl]; rfl
    | ok pl => rw [pickDecision_calls_of_fetch_ok env r s capp ref pl href hpl]; rfl
  · intro err herr
    rw [pickDecision_calls_of_fetch_error env r s capp ref err href herr]
  · intro pl hpl
    exact pickDecision_calls_of_fetch_ok env r s capp ref pl href hpl

/-- The witness of C7: an empty site under the policies `primary`, `backup`. -/
theorem pick_uses_effective_policy_witness :
    (pickDecision (scripted ⟨.ok (sampleCapp ""), .ok samplePlacement,
        (sampleDecisions ["cluster-a"], none), none⟩) ⟨["primary", "backup"], "policies"⟩ ()
          (sampleCapp "")).calls.head?
      = some (Call.getPlacement ⟨"policies", "primary"⟩) :=
  (pick_uses_effective_policy (scripted ⟨.ok (sampleCapp ""), .ok samplePlacement,
      (sampleDecisions ["cluster-a"], none), none⟩) ⟨["primary", "backup"], "policies"⟩ ()
    (sampleCapp "") "primary" ["backup"] rfl).2.1

theorem updateAndReturn_outcome {σ : Type} (env : Env σ) (s : σ) (capp : Capp)
    (target : String) (before : List Call) :
    (updateAndReturn env s capp target before).outcome
      = .returned {} (env.UpdateCappDestination s capp target).2 := by
  simp only [updateAndReturn]
  cases h : (env.UpdateCappDestination s capp target).2 <;> simp

theorem updateAndReturn_calls {σ : Type} (env : Env σ) (s : σ) (capp : Capp)
    (target : String) (before : List Call) :
    (updateAndReturn env s capp target before).calls
      = before ++ [Call.updateDestination capp target] := by
  simp only [updateAndReturn]
  cases h : (env.UpdateCappDestination s capp target).2 <;> simp

theorem updateAndReturn_state {σ : Type} (env : Env σ) (s : σ) (capp : Capp)
    (target : String) (before : List Call) :
    (updateAndReturn env s capp target before).state
      = (env.UpdateCappDestination s capp target).1 := by
  simp only [updateAndReturn]
  cases h : (env.UpdateCappDestination s capp target).2 <;> simp

theorem pickDecision_outcome_of_fetch_ok {σ : Type} (env : Env σ)
    (r : ServicePlacementReconciler) (s : σ) (capp : Capp) (ref : String) (pl : Placement)
    (href : pickPlacementRef r capp = .ok ref)
    (hpl : env.GetPlacement s ⟨r.PlacementsNamespace, ref⟩ = .ok pl) :
    ∃ cluster err, (pickDecision env r s capp).outcome = .returned cluster err := by
  simp only [pickDecision, href, hpl]
  split
  · exact ⟨_, _, rfl⟩
  · split
    · exact ⟨_, _, rfl⟩
    · split <;> exact ⟨_, _, rfl⟩

/-- The shape of every run that enters the picker branch with a policy name and
a fetched Placement: the calls are the four reads, followed by at most one
destination update, and a run without update leaves the state alone and
returns either the picker's error or the requeue. -/
theorem reconcile_after_fetch_ok {σ : Type} (env : Env σ) (r : ServicePlacementReconciler)
    (s : σ) (req : Request) (capp : Capp) (ref : String) (pl : Placement)
    (hget : env.GetCapp s req.NamespacedName = .ok capp)
    (hcond : capp.Spec.Site = "" ∨ Contains r.Placements capp.Spec.Site = true)
    (href : pickPlacementRef r capp = .ok ref)
    (hpl : env.GetPlacement s ⟨r.PlacementsNamespace, ref⟩ = .ok pl) :
    ((Reconcile env r s req).calls
        = [Call.getCapp req.NamespacedName, Call.pickDecision capp,
            Call.getPlacement ⟨r.PlacementsNamespace, ref⟩,
            Call.listDecisions capp ref r.PlacementsNamespace]
      ∧ (Reconcile env r s req).state = s
      ∧ ((∃ e, (Reconcile env r s req).outcome = .returned {} (some e))
        ∨ (Reconcile env r s req).outcome = .returned ⟨false, 20000000000⟩ none))
    ∨ (∃ cluster, Reconcile env r s req
        = updateAndReturn env s capp cluster
            [Call.getCapp req.NamespacedName, Call.pickDecision capp,
              Call.getPlacement ⟨r.PlacementsNamespace, ref⟩,
              Call.listDecisions capp ref r.PlacementsNamespace]) := by
  have hcalls := pickDecision_calls_of_fetch_ok env r s capp ref pl href hpl
  obtain ⟨cluster, err, hout⟩ := pickDecision_outcome_of_fetch_ok env r s capp ref pl href hpl
  simp only [Reconcile, hget, hcond, if_true, hout, hcalls]
  cases err with
  | some e => left; exact ⟨rfl, rfl, Or.inl ⟨e, rfl⟩⟩
  | none =>
    by_cases hq : cluster = "requeue"
    · left; simp [hq, Second]
    · right; exact ⟨cluster, by simp [hq]⟩

theorem reconcile_of_fetch_error {σ : Type} (env : Env σ) (r : ServicePlacementReconciler)
    (s : σ) (req : Request) (capp : Capp) (ref : String) (err : Error)
    (hget : env.GetCapp s req.NamespacedName = .ok capp)
    (hcond : capp.Spec.Site = "" ∨ Contains r.Placements capp.Spec.Site = true)
    (href : pickPlacementRef r capp = .ok ref)
    (hpl : env.GetPlacement s ⟨r.PlacementsNamespace, ref⟩ = .error err) :
    Reconcile env r s req
      = ⟨.returned {} (some err), s,
          [Call.getCapp req.NamespacedName, Call.pickDecision capp,
            Call.getPlacement ⟨r.PlacementsNamespace, ref⟩]⟩ := by
  have hp := pickDecision_calls_of_fetch_error env r s capp ref err href hpl
  simp [Reconcile, hget, hcond, hp]

theorem reconcile_of_index_panic {σ : Type} (env : Env σ) (r : ServicePlacementReconciler)
    (s : σ) (req : Request) (capp : Capp) (p : Panic)
    (hget : env.GetCapp s req.NamespacedName = .ok capp)
    (hcond : capp.Spec.Site = "" ∨ Contains r.Placements capp.Spec.Site = true)
    (href : pickPlacementRef r capp = .error p) :
    Reconcile env r s req
      = ⟨.panicked p, s, [Call.getCapp req.NamespacedName, Call.pickDecision capp]⟩ := by
  simp [Reconcile, hget, hcond, pickDecision, href]

theorem reconcile_of_resolved {σ : Type} (env : Env σ) (r : ServicePlacementReconciler)
    (s : σ) (req : Request) (capp : Capp)
    (hget : env.GetCapp s req.NamespacedName = .ok capp)
    (hcond : ¬ (capp.Spec.Site = "" ∨ Contains r.Placements capp.Spec.Site = true)) :
    Reconcile env r s req
      = updateAndReturn env s capp capp.Spec.Site [Call.getCapp req.NamespacedName] := by
  simp only [Reconcile, hget, hcond, if_false]

theorem reconcile_of_get_error {σ : Type} (env : Env σ) (r : ServicePlacementReconciler)
    (s : σ) (req : Request) (err : Error)
    (hget : env.GetCapp s req.NamespacedName = .error err) :
    (Reconcile env r s req).calls = [Call.getCapp req.NamespacedName]
      ∧ (Reconcile env r s req).state = s
      ∧ (Reconcile env r s req).outcome
          = .returned {} (if env.IsNotFound err then none else some err) := by
  simp only [Reconcile, hget]
  by_cases h : env.IsNotFound err = true <;> simp [h]

theorem pickPlacementRef_error_iff (r : ServicePlacementReconciler) (capp : Capp) :
    (∃ p, pickPlacementRef r capp = .error p) ↔ (capp.Spec.Site = "" ∧ r.Placements = []) := by
  unfold pickPlacementRef
  by_cases h : capp.Spec.Site = ""
  · cases hP : r.Placements <;> simp [h]
  · simp [h]

/-- C8: hard errors are returned as they are, with the empty result.
(1) A workload fetch that fails with an error that `errors.IsNotFound` does not
accept (for every implementation of the check): `Reconcile` returns that
error, makes no other call and leaves the state alone.
(2) A Placement fetch made by the run that fails: `Reconcile` returns that
error (so not the 20-second requeue), makes no destination update and leaves
the state alone.
(3) A destination update made by the run that fails: `Reconcile` returns that
error. -/
theorem hard_errors_are_returned {σ : Type} (env : Env σ) (r : ServicePlacementReconciler)
    (s : σ) (req : Request) :
    (∀ err, env.GetCapp s req.NamespacedName = .error err →
        env.IsNotFound err = false →
        (Reconcile env r s req).outcome = .returned {} (some err)
          ∧ (Reconcile env r s req).calls = [Call.getCapp req.NamespacedName]
          ∧ (Reconcile env r s req).calls.countP Call.isUpdate = 0
          ∧ (Reconcile env r s req).state = s)
      ∧ (∀ key err, Call.getPlacement key ∈ (Reconcile env r s req).calls →
          env.GetPlacement s key = .error err →
        (Reconcile env r s req).outcome = .returned {} (some err)
          ∧ (Reconcile env r s req).outcome ≠ .returned ⟨false, 20000000000⟩ none
          ∧ (Reconcile env r s req).calls.countP Call.isUpdate = 0
          ∧ (Reconcile env r s req).state = s)
      ∧ (∀ capp target err,
          Call.updateDestination capp target ∈ (Reconcile env r s req).calls →
          (env.UpdateCappDestination s capp target).2 = some err →
        (Reconcile env r s req).outcome = .returned {} (some err)) := by
  refine ⟨?_, ?_, ?_⟩
  · intro err hget hnf
    simp [Reconcile, hget, hnf, Call.isUpdate]
  · intro key err hmem herr
    cases hget : env.GetCapp s req.NamespacedName with
    | error e =>
      rw [(reconcile_of_get_error env r s req e hget).1] at hmem
      simp at hmem
    | ok capp =>
      by_cases hcond : capp.Spec.Site = "" ∨ Contains r.Placements capp.Spec.Site = true
      · cases href : pickPlacementRef r capp with
        | error p =>
          rw [reconcile_of_index_panic env r s req capp p hget hcond href] at hmem
          simp at hmem
        | ok ref =>
          cases hpl : env.GetPlacement s ⟨r.PlacementsNamespace, ref⟩ with
          | error e =>
            rw [reconcile_of_fetch_error env r s req capp ref e hget hcond href hpl] at hmem ⊢
            simp at hmem
            subst hmem
            rw [hpl] at herr
            cases herr
            simp [Call.isUpdate]
          | ok pl =>
            exfalso
            have hkey : key = ⟨r.PlacementsNamespace, ref⟩ := by
              rcases reconcile_after_fetch_ok env r s req capp ref pl hget hcond href hpl with
                ⟨hc, _, _⟩ | ⟨cluster, hrun⟩
              · rw [hc] at hmem; simpa using hmem
              · rw [hrun, updateAndReturn_calls] at hmem; simpa using hmem
            rw [hkey, hpl] at herr
            cases herr
      · rw [reconcile_of_resolved env r s req capp hget hcond, updateAndReturn_calls] at hmem
        simp at hmem
  · intro capp0 target err hmem herr
    cases hget : env.GetCapp s req.NamespacedName with
    | error e =>
      rw [(reconcile_of_get_error env r s req e hget).1] at hmem
      simp at hmem
    | ok capp =>
      by_cases hcond : capp.Spec.Site = "" ∨ Contains r.Placements capp.Spec.Site = true
      · cases href : pickPlacementRef r capp with
        | error p =>
          rw [reconcile_of_index_panic env r s req capp p hget hcond href] at hmem
          simp at hmem
        | ok ref =>
          cases hpl : env.GetPlacement s ⟨r.PlacementsNamespace, ref⟩ with
          | error e =>
            rw [reconcile_of_fetch_error env r s req capp ref e hget hcond href hpl] at hmem
            simp at hmem
          | ok pl =>
            rcases reconcile_after_fetch_ok env r s req capp ref pl hget hcond href hpl with
              ⟨hc, _, _⟩ | ⟨cluster, hrun⟩
            · rw [hc] at hmem; simp at hmem
            · rw [hrun, updateAndReturn_calls] at hmem
              simp at hmem
              obtain ⟨h1, h2⟩ := hmem
              subst h1; subst h2
              rw [hrun, updateAndReturn_outcome, herr]
      · rw [reconcile_of_resolved env r s req capp hget hcond, updateAndReturn_calls] at hmem
        simp at hmem
        obtain ⟨h1, h2⟩ := hmem
        subst h1
        rw [reconcile_of_resolved env r s req capp0 hget hcond, updateAndReturn_outcome,
          ← h2, herr]

/-- The witness of C8: a workload fetch refused by the server, a Placement that
cannot be fetched, and a destination update that is refused. -/
theorem hard_errors_are_returned_witness :
    (Reconcile (scripted ⟨.error sampleFailure, .ok samplePlacement,
        (sampleDecisions ["cluster-a"], none), none⟩) sampleReconciler ()
          sampleRequest).outcome = .returned {} (some sampleFailure)
      ∧ (Reconcile (scripted ⟨.ok (sampleCapp ""), .error sampleFailure,
          (sampleDecisions ["cluster-a"], none), none⟩) sampleReconciler ()
            sampleRequest).outcome = .returned {} (some sampleFailure)
      ∧ (Reconcile (scripted ⟨.ok (sampleCapp ""), .ok samplePlacement,
          (sampleDecisions ["cluster-a"], none), some sampleFailure⟩) sampleReconciler ()
            sampleRequest).outcome = .returned {} (some sampleFailure) :=
  ⟨((hard_errors_are_returned (scripted ⟨.error sampleFailure, .ok samplePlacement,
        (sampleDecisions ["cluster-a"], none), none⟩) sampleReconciler ()
          sampleRequest).1 sampleFailure rfl (by decide)).1,
   ((hard_errors_are_returned (scripted ⟨.ok (sampleCapp ""), .error sampleFailure,
        (sampleDecisions ["cluster-a"], none), none⟩) sampleReconciler ()
          sampleRequest).2.1 ⟨"policies", "primary"⟩ sampleFailure (by decide) rfl).1,
   (hard_errors_are_returned (scripted ⟨.ok (sampleCapp ""), .ok samplePlacement,
        (sampleDecisions ["cluster-a"], none), some sampleFailure⟩) sampleReconciler ()
          sampleRequest).2.2 (sampleCapp "") "cluster-a" sampleFailure (by decide) rfl⟩

/-- C10: reading `Placements[0]` fails exactly when the site is empty and the
list is empty.  So `Reconcile` panics (always with the index-out-of-range
panic for index 0 of a list of length 0) exactly when the fetched workload
has an empty site and no policy name is configured; with at least one
configured policy name it never panics, and with a non-empty site
`pickDecision` takes the site without reading the list. -/
theorem reconcile_index_in_range {σ : Type} (env : Env σ) (r : ServicePlacementReconciler)
    (s : σ) (req : Request) :
    (∀ capp, (∃ p, pickPlacementRef r capp = .error p)
        ↔ (capp.Spec.Site = "" ∧ r.Placements = []))
      ∧ (∀ capp, capp.Spec.Site ≠ "" → pickPlacementRef r capp = .ok capp.Spec.Site)
      ∧ ((∃ p, (Reconcile env r s req).outcome = .panicked p)
        ↔ (∃ capp, env.GetCapp s req.NamespacedName = .ok capp
            ∧ capp.Spec.Site = "" ∧ r.Placements = []))
      ∧ (∀ p, (Reconcile env r s req).outcome = .panicked p → p = .indexOutOfRange 0 0)
      ∧ (r.Placements ≠ [] → ∀ p, (Reconcile env r s req).outcome ≠ .panicked p) := by
  have hiff : (∃ p, (Reconcile env r s req).outcome = .panicked p)
      ↔ (∃ capp, env.GetCapp s req.NamespacedName = .ok capp
          ∧ capp.Spec.Site = "" ∧ r.Placements = []) := by
    constructor
    · rintro ⟨p, hp⟩
      cases hget : env.GetCapp s req.NamespacedName with
      | error e =>
        rw [(reconcile_of_get_error env r s req e hget).2.2] at hp
        cases hp
      | ok capp =>
        by_cases hcond : capp.Spec.Site = "" ∨ Contains r.Placements capp.Spec.Site = true
        · cases href : pickPlacementRef r capp with
          | error q =>
            exact ⟨capp, rfl, (pickPlacementRef_error_iff r capp).1 ⟨q, href⟩⟩
          | ok ref =>
            exfalso
            cases hpl : env.GetPlacement s ⟨r.PlacementsNamespace, ref⟩ with
            | error e =>
              rw [reconcile_of_fetch_error env r s req capp ref e hget hcond href hpl] at hp
              cases hp
            | ok pl =>
              rcases reconcile_after_fetch_ok env r s req capp ref pl hget hcond href hpl with
                ⟨_, _, ⟨e, ho⟩ | ho⟩ | ⟨cluster, hrun⟩
              · rw [ho] at hp; cases hp
              · rw [ho] at hp; cases hp
              · rw [hrun, updateAndReturn_outcome] at hp; cases hp
        · exfalso
          rw [reconcile_of_resolved env r s req capp hget hcond, updateAndReturn_outcome] at hp
          cases hp
    · rintro ⟨capp, hget, hsite, hP⟩
      exact ⟨.indexOutOfRange 0 0, by simp [Reconcile, hget, hsite, pickDecision,
        pickPlacementRef, hP]⟩
  refine ⟨fun capp => pickPlacementRef_error_iff r capp, ?_, hiff, ?_, ?_⟩
  · intro capp hne
    simp [pickPlacementRef, hne]
  · intro p hp
    obtain ⟨capp, hget, hsite, hP⟩ := hiff.1 ⟨p, hp⟩
    have : (Reconcile env r s req).outcome = .panicked (.indexOutOfRange 0 0) := by
      simp [Reconcile, hget, hsite, pickDecision, pickPlacementRef, hP]
    rw [this] at hp
    cases hp
    rfl
  · intro hne p hp
    obtain ⟨capp, _, _, hP⟩ := hiff.1 ⟨p, hp⟩
    exact hne hP

/-- The witness of C10: under the single policy `primary` a workload with an
empty site does not make `Reconcile` panic, and with no configured policy it
does. -/
theorem reconcile_index_in_range_witness :
    (Reconcile (scripted ⟨.ok (sampleCapp ""), .ok samplePlacement,
        (sampleDecisions ["cluster-a"], none), none⟩) sampleReconciler ()
          sampleRequest).outcome ≠ .panicked (.indexOutOfRange 0 0)
      ∧ ∃ p, (Reconcile (scripted ⟨.ok (sampleCapp ""), .ok samplePlacement,
          (sampleDecisions ["cluster-a"], none), none⟩) ⟨[], "policies"⟩ ()
            sampleRequest).outcome = .panicked p :=
  ⟨(reconcile_index_in_range (scripted ⟨.ok (sampleCapp ""), .ok samplePlacement,
      (sampleDecisions ["cluster-a"], none), none⟩) sampleReconciler ()
        sampleRequest).2.2.2.2 (by decide) (.indexOutOfRange 0 0),
   (reconcile_index_in_range (scripted ⟨.ok (sampleCapp ""), .ok samplePlacement,
      (sampleDecisions ["cluster-a"], none), none⟩) ⟨[], "policies"⟩ ()
        sampleRequest).2.2.1.2 ⟨sampleCapp "", rfl, rfl, rfl⟩⟩

/-! ## Idempotence over the store -/

theorem annotate_idem (key value : String) (m : List (String × String)) :
    annotate key value (annotate key value m) = annotate key value m := by
  simp [annotate, List.filter_filter]

theorem withDestination_idem (key : String) (capp : Capp) (cluster : String) :
    withDestination key (withDestination key capp cluster) cluster
      = withDestination key capp cluster := by
  simp [withDestination, annotate_idem]

theorem hasKey_iff (key : NamespacedName) (c : Capp) :
    Capp.hasKey key c = true ↔ (c.Namespace = key.Namespace ∧ c.Name = key.Name) := by
  simp [Capp.hasKey]

theorem getCapp_hasKey (st : Store) (key : NamespacedName) (capp : Capp)
    (hget : st.getCapp key = .ok capp) :
    st.Capps.find? (Capp.hasKey key) = some capp ∧ Capp.hasKey key capp = true := by
  unfold Store.getCapp at hget
  cases hf : st.Capps.find? (Capp.hasKey key) with
  | none => rw [hf] at hget; cases hget
  | some c =>
    rw [hf] at hget
    cases hget
    exact ⟨rfl, List.find?_some hf⟩

/-- A write of the store model is either refused, leaving the store as it was,
or replaces the stored workload, which the next fetch then returns. -/
theorem updateDestination_cases (annotationKey : String)
    (rejects : Capp → String → Option Error) (st : Store) (key : NamespacedName)
    (capp : Capp) (cluster : String) (hget : st.getCapp key = .ok capp) :
    (Store.updateDestination annotationKey rejects st capp cluster).1 = st
      ∨ ((Store.updateDestination annotationKey rejects st capp cluster).1
          = { st with Capps := st.Capps.map (fun c =>
                if Capp.hasKey key c then withDestination annotationKey capp cluster else c) }
        ∧ (Store.updateDestination annotationKey rejects st capp cluster).1.getCapp key
          = .ok (withDestination annotationKey capp cluster)) := by
  obtain ⟨hfind, hkey⟩ := getCapp_hasKey st key capp hget
  have hk : (⟨capp.Namespace, capp.Name⟩ : NamespacedName) = key := by
    obtain ⟨h1, h2⟩ := (hasKey_iff key capp).1 hkey
    cases key
    simp_all
  unfold Store.updateDestination
  rw [hk]
  cases rejects capp cluster with
  | some e => left; rfl
  | none =>
    by_cases hany : st.Capps.any (Capp.hasKey key) = true
    · right
      simp only [hany, if_true, true_and]
      unfold Store.getCapp
      have hcomp : (Capp.hasKey key ∘ fun c =>
          if Capp.hasKey key c then withDestination annotationKey capp cluster else c)
          = Capp.hasKey key := by
        funext c
        by_cases hc : Capp.hasKey key c = true
        · have : Capp.hasKey key (withDestination annotationKey capp cluster) = true := by
            rw [hasKey_iff] at hkey ⊢
            exact hkey
          simp [hc, this]
        · simp [hc]
      simp only [List.find?_map, hcomp, hfind, Option.map_some', hkey, if_true]
    · left
      simp [hany]

/-- Writing the same destination again over the store that a first accepted write
produced changes nothing. -/
theorem updateDestination_again (annotationKey : String)
    (rejects : Capp → String → Option Error) (st : Store) (key : NamespacedName)
    (capp : Capp) (cluster : String) (hkey : Capp.hasKey key capp = true) :
    (Store.updateDestination annotationKey rejects
        { st with Capps := st.Capps.map (fun c =>
            if Capp.hasKey key c then withDestination annotationKey capp cluster else c) }
        (withDestination annotationKey capp cluster) cluster).1
      = { st with Capps := st.Capps.map (fun c =>
            if Capp.hasKey key c then withDestination annotationKey capp cluster else c) } := by
  have hk : (⟨(withDestination annotationKey capp cluster).Namespace,
      (withDestination annotationKey capp cluster).Name⟩ : NamespacedName) = key := by
    obtain ⟨h1, h2⟩ := (hasKey_iff key capp).1 hkey
    cases key
    simp_all [withDestination]
  unfold Store.updateDestination
  rw [hk, withDestination_idem]
  cases rejects (withDestination annotationKey capp cluster) cluster with
  | some e => rfl
  | none =>
    simp only []
    split
    · simp only [List.map_map]
      congr 1
      apply List.map_congr_left
      intro c _
      by_cases hc : Capp.hasKey key c = true
      · simp [hc]
      · simp [hc]
    · rfl

/-- C9: over the store model, for a stored workload whose site is a cluster name
`c` that is non-empty and not a configured policy name, running `Reconcile`
a second time on the state left by the first run leaves that state as it is,
and every destination update of the second run has target `c`. -/
theorem reconcile_twice_same_state (annotationKey : String)
    (rejects : Capp → String → Option Error) (r : ServicePlacementReconciler) (st : Store)
    (req : Request) (capp : Capp) (c : String)
    (hget : st.getCapp req.NamespacedName = .ok capp)
    (hsite : capp.Spec.Site = c)
    (hc : c ≠ "")
    (hnot : c ∉ r.Placements) :
    (Reconcile (storeEnv annotationKey rejects) r
        (Reconcile (storeEnv annotationKey rejects) r st req).state req).state
      = (Reconcile (storeEnv annotationKey rejects) r st req).state
    ∧ (∀ capp0 target, Call.updateDestination capp0 target
          ∈ (Reconcile (storeEnv annotationKey rejects) r
              (Reconcile (storeEnv annotationKey rejects) r st req).state req).calls →
        target = c)
    ∧ (Reconcile (storeEnv annotationKey rejects) r
        (Reconcile (storeEnv annotationKey rejects) r st req).state req).calls.countP
          Call.isUpdate ≤ 1 := by
  subst hsite
  have hcond : ∀ x : Capp, x.Spec.Site = capp.Spec.Site →
      ¬ (x.Spec.Site = "" ∨ Contains r.Placements x.Spec.Site = true) := by
    intro x hx
    rw [hx]
    rintro (h | h)
    · exact hc h
    · exact hnot ((contains_iff _ _).1 h)
  have run1 := reconcile_of_resolved (storeEnv annotationKey rejects) r st req capp hget
    (hcond capp rfl)
  have hstate1 : (Reconcile (storeEnv annotationKey rejects) r st req).state
      = (Store.updateDestination annotationKey rejects st capp capp.Spec.Site).1 := by
    rw [run1, updateAndReturn_state]; rfl
  rw [hstate1]
  rcases updateDestination_cases annotationKey rejects st req.NamespacedName capp
      capp.Spec.Site hget with hsame | ⟨hnew, hget2⟩
  · rw [hsame, run1, updateAndReturn_state, updateAndReturn_calls]
    refine ⟨hsame, ?_, ?_⟩
    · intro capp0 target hmem
      simp at hmem
      exact hmem.2
    · simp [Call.isUpdate]
  · have hsite2 : (withDestination annotationKey capp capp.Spec.Site).Spec.Site
        = capp.Spec.Site := rfl
    have run2 := reconcile_of_resolved (storeEnv annotationKey rejects) r
      (Store.updateDestination annotationKey rejects st capp capp.Spec.Site).1 req
      (withDestination annotationKey capp capp.Spec.Site) hget2 (hcond _ hsite2)
    rw [run2, updateAndReturn_state, updateAndReturn_calls]
    refine ⟨?_, ?_, ?_⟩
    · show (Store.updateDestination annotationKey rejects _ _ _).1 = _
      rw [hsite2, hnew]
      exact updateDestination_again annotationKey rejects st req.NamespacedName capp
        capp.Spec.Site (getCapp_hasKey st req.NamespacedName capp hget).2
    · intro capp0 target hmem
      simp at hmem
      rw [hmem.2]
      rfl
    · simp [Call.isUpdate]

/-- The witness of C9: the workload `default/web` with site `east-1` under the
single policy `primary`.  After one run, and after two, the store holds the
workload with resolved cluster `east-1` and the annotation set to `east-1`. -/
theorem reconcile_twice_same_state_witness :
    (Reconcile (storeEnv "placement" acceptAll) sampleReconciler
        (Reconcile (storeEnv "placement" acceptAll) sampleReconciler
          (sampleStore "east-1") sampleRequest).state sampleRequest).state
      = (Reconcile (storeEnv "placement" acceptAll) sampleReconciler
          (sampleStore "east-1") sampleRequest).state
    ∧ (Reconcile (storeEnv "placement" acceptAll) sampleReconciler
          (sampleStore "east-1") sampleRequest).state
      = ⟨[⟨"default", "web", [("placement", "east-1")], ⟨"east-1"⟩, "east-1"⟩],
          [samplePlacement], []⟩ :=
  ⟨(reconcile_twice_same_state "placement" acceptAll sampleReconciler (sampleStore "east-1")
      sampleRequest (sampleCapp "east-1") "east-1" rfl rfl (by decide) (by decide)).1,
   by decide⟩

end Controllers
